import Mathlib

/-!
Verification of the FlexiMap heatmap engine specification against the
repository's source.

The repository ships a JavaScript prototype (`heatmap-analyzer.js`) and the
frontend of the `map_baker` service; the Python heatmap backend documented in
the README (decay functions, weight divisors, filters, layer combination) is
not part of the source tree.  Definitions for that backend are therefore
modelled from the specification text and are marked `Modelled from the spec:`
in their doc comments.  Everything else is embedded directly from the
JavaScript sources.  JavaScript numbers are modelled as real numbers; where a
computation would produce `NaN` in JavaScript the embedding uses an `Option`
value (`none` = NaN/undefined) so that comparison guards such as
`distance < 50` fail exactly as they do at runtime.
-/

open Classical

noncomputable section

namespace Fleximap

/-! ## Decay Function Library (spec §4.2)

The decay functions belong to the `map_baker` backend, which is absent from
the source tree (only its README describes it).  They are modelled from the
spec. -/

/-- Modelled from the spec: the decay-function selector together with its
parameter (`exponential(rate)`, `linear_cutoff(cutoff)`, `power_decay(exponent)`);
the backend implementing these is missing from the source tree. -/
inductive DecaySpec where
  | exponential (rate : ℝ)
  | linearCutoff (cutoff : ℝ)
  | powerDecay (exponent : ℝ)

/-- Modelled from the spec: the decay parameter domain — `rate > 0`,
`cutoff > 0`, `exponent > 0`; out-of-domain parameters are an
`InvalidParameterError`. -/
def DecaySpec.valid : DecaySpec → Prop
  | .exponential rate => 0 < rate
  | .linearCutoff cutoff => 0 < cutoff
  | .powerDecay exponent => 0 < exponent

/-- Modelled from the spec: `decay(distance, params) -> weight`;
`exponential(d, rate) = exp(-rate*d)`, `linear_cutoff(d, cutoff) =
max(0, 1 - d/cutoff)`, `power_decay(d, exponent) = 1/(1+d)^exponent`;
negative distances are defensively treated as `d = 0`. -/
def decayValue : DecaySpec → ℝ → ℝ
  | .exponential rate, d => Real.exp (-(rate * max d 0))
  | .linearCutoff cutoff, d => max 0 (1 - max d 0 / cutoff)
  | .powerDecay exponent, d => 1 / (1 + max d 0) ^ exponent

lemma decayValue_at_zero (ds : DecaySpec) : decayValue ds 0 = 1 := by
  cases ds with
  | exponential rate => simp [decayValue]
  | linearCutoff cutoff => simp [decayValue]
  | powerDecay exponent => simp [decayValue, Real.one_rpow]

lemma decayValue_nonneg (ds : DecaySpec) (hv : ds.valid) (d : ℝ) :
    0 ≤ decayValue ds d := by
  cases ds with
  | exponential rate => exact (Real.exp_pos _).le
  | linearCutoff cutoff => exact le_max_left _ _
  | powerDecay exponent =>
      simp only [decayValue]
      have hb : (0:ℝ) < 1 + max d 0 := by positivity
      have := Real.rpow_pos_of_pos hb exponent
      positivity

lemma decayValue_le_one (ds : DecaySpec) (hv : ds.valid) (d : ℝ) :
    decayValue ds d ≤ 1 := by
  cases ds with
  | exponential rate =>
      have hm : 0 ≤ max d 0 := le_max_right _ _
      have : -(rate * max d 0) ≤ 0 := by
        have : 0 ≤ rate * max d 0 := mul_nonneg (le_of_lt hv) hm
        linarith
      calc Real.exp (-(rate * max d 0)) ≤ Real.exp 0 := Real.exp_le_exp.mpr this
        _ = 1 := Real.exp_zero
  | linearCutoff cutoff =>
      have hm : 0 ≤ max d 0 := le_max_right _ _
      have hdiv : 0 ≤ max d 0 / cutoff := div_nonneg hm (le_of_lt hv)
      have h1 : 1 - max d 0 / cutoff ≤ 1 := by linarith
      exact max_le (by norm_num) h1
  | powerDecay exponent =>
      have hb : (1:ℝ) ≤ 1 + max d 0 := by
        have : 0 ≤ max d 0 := le_max_right _ _
        linarith
      have h1 : (1:ℝ) ≤ (1 + max d 0) ^ exponent :=
        Real.one_le_rpow hb (le_of_lt hv)
      have hpos : (0:ℝ) < (1 + max d 0) ^ exponent := lt_of_lt_of_le one_pos h1
      simp only [decayValue]
      rw [div_le_one hpos]
      exact h1

lemma decayValue_antitone (ds : DecaySpec) (hv : ds.valid) {d₁ d₂ : ℝ}
    (h : d₁ ≤ d₂) : decayValue ds d₂ ≤ decayValue ds d₁ := by
  have hm : max d₁ 0 ≤ max d₂ 0 := max_le_max h le_rfl
  cases ds with
  | exponential rate =>
      apply Real.exp_le_exp.mpr
      have : rate * max d₁ 0 ≤ rate * max d₂ 0 :=
        mul_le_mul_of_nonneg_left hm (le_of_lt hv)
      linarith
  | linearCutoff cutoff =>
      apply max_le_max le_rfl
      have hdiv : max d₁ 0 / cutoff ≤ max d₂ 0 / cutoff :=
        (div_le_div_iff_of_pos_right hv).mpr hm
      linarith
  | powerDecay exponent =>
      have h₁ : (0:ℝ) ≤ 1 + max d₁ 0 := by positivity
      have h₂ : (1:ℝ) + max d₁ 0 ≤ 1 + max d₂ 0 := by linarith
      have hr : (1 + max d₁ 0) ^ exponent ≤ (1 + max d₂ 0) ^ exponent :=
        Real.rpow_le_rpow h₁ h₂ (le_of_lt hv)
      have hpos : (0:ℝ) < (1 + max d₁ 0) ^ exponent :=
        Real.rpow_pos_of_pos (by positivity) _
      exact one_div_le_one_div_of_le hpos hr

lemma decayValue_neg_clamp (ds : DecaySpec) {d : ℝ} (h : d ≤ 0) :
    decayValue ds d = decayValue ds 0 := by
  cases ds <;> simp [decayValue, max_eq_right h]

/-- C4: for each of the three decay functions (exponential, linear_cutoff,
power_decay) with valid parameters, `decay(0, params) = 1`, the returned
weight always lies in `[0,1]`, negative distances are treated as distance 0,
and the weight is monotonically non-increasing as distance increases. -/
theorem decay_contract (ds : DecaySpec) (hv : ds.valid) :
    decayValue ds 0 = 1 ∧
    (∀ d : ℝ, 0 ≤ decayValue ds d ∧ decayValue ds d ≤ 1) ∧
    (∀ d : ℝ, d ≤ 0 → decayValue ds d = decayValue ds 0) ∧
    (∀ d₁ d₂ : ℝ, d₁ ≤ d₂ → decayValue ds d₂ ≤ decayValue ds d₁) :=
  ⟨decayValue_at_zero ds,
   fun d => ⟨decayValue_nonneg ds hv d, decayValue_le_one ds hv d⟩,
   fun _ h => decayValue_neg_clamp ds h,
   fun _ _ h => decayValue_antitone ds hv h⟩

/-- Witness for C4: the contract instantiated at `exponential(rate = 2)`. -/
theorem decay_contract_witness :
    (DecaySpec.exponential 2).valid ∧
    (decayValue (DecaySpec.exponential 2) 0 = 1 ∧
     (∀ d : ℝ, 0 ≤ decayValue (DecaySpec.exponential 2) d ∧
        decayValue (DecaySpec.exponential 2) d ≤ 1) ∧
     (∀ d : ℝ, d ≤ 0 →
        decayValue (DecaySpec.exponential 2) d = decayValue (DecaySpec.exponential 2) 0) ∧
     (∀ d₁ d₂ : ℝ, d₁ ≤ d₂ →
        decayValue (DecaySpec.exponential 2) d₂ ≤ decayValue (DecaySpec.exponential 2) d₁)) :=
  ⟨by simp [DecaySpec.valid],
   decay_contract (DecaySpec.exponential 2) (by simp [DecaySpec.valid])⟩

/-- C5: for every `cutoff > 0`, `linear_cutoff(d, cutoff)` equals
`max(0, 1 - d/cutoff)` (for every actual distance `d ≥ 0`), and equals
exactly 0 for every distance `d ≥ cutoff`. -/
theorem linearCutoff_formula (cutoff : ℝ) (hc : 0 < cutoff) :
    (∀ d : ℝ, 0 ≤ d →
       decayValue (DecaySpec.linearCutoff cutoff) d = max 0 (1 - d / cutoff)) ∧
    (∀ d : ℝ, cutoff ≤ d → decayValue (DecaySpec.linearCutoff cutoff) d = 0) := by
  constructor
  · intro d hd
    simp [decayValue, max_eq_left hd]
  · intro d hd
    have hd0 : (0:ℝ) ≤ d := le_trans (le_of_lt hc) hd
    have h1 : (1:ℝ) ≤ d / cutoff := (one_le_div hc).mpr hd
    simp only [decayValue, max_eq_left hd0]
    exact max_eq_left (by linarith)

/-- Witness for C5: the formula instantiated at `cutoff = 2`. -/
theorem linearCutoff_formula_witness :
    (0:ℝ) < 2 ∧
    ((∀ d : ℝ, 0 ≤ d →
        decayValue (DecaySpec.linearCutoff 2) d = max 0 (1 - d / 2)) ∧
     (∀ d : ℝ, (2:ℝ) ≤ d → decayValue (DecaySpec.linearCutoff 2) d = 0)) :=
  ⟨by norm_num, linearCutoff_formula 2 (by norm_num)⟩

/-! ## The distance helper of `heatmap-analyzer.js` (C10) -/

/-- JavaScript `Math.atan2(y, x)`: the argument of the complex number
`x + y*i`, valued in `(-π, π]` with `atan2(0, 0) = 0` — the same convention
as `Complex.arg`. -/
def atan2 (y x : ℝ) : ℝ := Complex.arg ⟨x, y⟩

lemma atan2_nonneg (y x : ℝ) (hy : 0 ≤ y) : 0 ≤ atan2 y x :=
  Complex.arg_nonneg_iff.mpr hy

lemma atan2_zero_one : atan2 0 1 = 0 := by
  have h : (⟨1, 0⟩ : ℂ) = 1 := by
    apply Complex.ext <;> simp
  show Complex.arg ⟨1, 0⟩ = 0
  rw [h]
  exact Complex.arg_one

/-- Embedded from `heatmap-analyzer.js`, `calculateDistance(lat1, lng1, lat2,
lng2)`: haversine great-circle distance in kilometres between two
latitude/longitude pairs (Earth radius 6371 km). -/
def calculateDistance (lat1 lng1 lat2 lng2 : ℝ) : ℝ :=
  let R : ℝ := 6371
  let dLat := (lat2 - lat1) * Real.pi / 180
  let dLng := (lng2 - lng1) * Real.pi / 180
  let a := Real.sin (dLat / 2) * Real.sin (dLat / 2) +
    Real.cos (lat1 * Real.pi / 180) * Real.cos (lat2 * Real.pi / 180) *
    Real.sin (dLng / 2) * Real.sin (dLng / 2)
  let c := 2 * atan2 (Real.sqrt a) (Real.sqrt (1 - a))
  R * c

/-- C10: the distance helper is symmetric in its two coordinate pairs,
returns 0 when both points coincide, and never returns a negative value
(latitudes restricted to [-90, 90] as in the claim; the properties in fact
hold unconditionally in the real-number model). -/
theorem calculateDistance_metric (lat1 lng1 lat2 lng2 : ℝ)
    (h1 : -90 ≤ lat1) (h2 : lat1 ≤ 90) (h3 : -90 ≤ lat2) (h4 : lat2 ≤ 90) :
    calculateDistance lat1 lng1 lat2 lng2 = calculateDistance lat2 lng2 lat1 lng1 ∧
    calculateDistance lat1 lng1 lat1 lng1 = 0 ∧
    0 ≤ calculateDistance lat1 lng1 lat2 lng2 := by
  refine ⟨?_, ?_, ?_⟩
  · have ha : Real.sin ((lat2 - lat1) * Real.pi / 180 / 2) *
        Real.sin ((lat2 - lat1) * Real.pi / 180 / 2) +
        Real.cos (lat1 * Real.pi / 180) * Real.cos (lat2 * Real.pi / 180) *
        Real.sin ((lng2 - lng1) * Real.pi / 180 / 2) *
        Real.sin ((lng2 - lng1) * Real.pi / 180 / 2) =
        Real.sin ((lat1 - lat2) * Real.pi / 180 / 2) *
        Real.sin ((lat1 - lat2) * Real.pi / 180 / 2) +
        Real.cos (lat2 * Real.pi / 180) * Real.cos (lat1 * Real.pi / 180) *
        Real.sin ((lng1 - lng2) * Real.pi / 180 / 2) *
        Real.sin ((lng1 - lng2) * Real.pi / 180 / 2) := by
      rw [show (lat1 - lat2) * Real.pi / 180 / 2 =
            -((lat2 - lat1) * Real.pi / 180 / 2) from by ring,
          show (lng1 - lng2) * Real.pi / 180 / 2 =
            -((lng2 - lng1) * Real.pi / 180 / 2) from by ring,
          Real.sin_neg, Real.sin_neg]
      ring
    simp only [calculateDistance]
    rw [ha]
  · simp [calculateDistance, atan2_zero_one]
  · simp only [calculateDistance]
    exact mul_nonneg (by norm_num)
      (mul_nonneg (by norm_num) (atan2_nonneg _ _ (Real.sqrt_nonneg _)))

/-- Witness for C10: the metric properties at Sydney and Melbourne's
latitudes/longitudes. -/
theorem calculateDistance_metric_witness :
    ((-90:ℝ) ≤ -33.8688 ∧ (-33.8688:ℝ) ≤ 90 ∧ (-90:ℝ) ≤ -37.8136 ∧ (-37.8136:ℝ) ≤ 90) ∧
    (calculateDistance (-33.8688) 151.2093 (-37.8136) 144.9631 =
       calculateDistance (-37.8136) 144.9631 (-33.8688) 151.2093 ∧
     calculateDistance (-33.8688) 151.2093 (-33.8688) 151.2093 = 0 ∧
     0 ≤ calculateDistance (-33.8688) 151.2093 (-37.8136) 144.9631) :=
  ⟨by norm_num,
   calculateDistance_metric (-33.8688) 151.2093 (-37.8136) 144.9631
     (by norm_num) (by norm_num) (by norm_num) (by norm_num)⟩

/-! ## Spec-modelled heatmap backend

The `map_baker` Python backend (`/api/process`, `/api/build_layer`) is not in
the source tree; only its README and its browser frontend are.  The data
model and the rasterization/combination pipeline below are modelled from the
specification (§3, §4.1, §4.3–§4.5, §7). -/

/-- Modelled from the spec: a GeoJSON property value — scalar or string. -/
inductive SValue where
  | num (q : ℚ)
  | str (s : String)
deriving DecidableEq

/-- Modelled from the spec: GeoJSON geometry with raw coordinate lists, so
that a coordinate pair of the wrong arity and an unsupported geometry type
are representable.  Coordinates are `[longitude, latitude]` in degrees. -/
inductive SGeometry where
  | point (coords : List ℚ)
  | lineString (coords : List (List ℚ))
  | polygon (rings : List (List (List ℚ)))
  | unsupported (typeName : String)
deriving DecidableEq

/-- Modelled from the spec: one GeoJSON feature — a geometry plus a property
mapping (missing keys are normal, not an error). -/
structure SFeature where
  geom : SGeometry
  props : List (String × SValue)
deriving DecidableEq

/-- Modelled from the spec (§4.1 errors): a geometry is malformed when a
coordinate pair has the wrong arity, a polygon ring is not closed
(first ≠ last), or the geometry type is unsupported. -/
def validGeometry : SGeometry → Bool
  | .point c => c.length == 2
  | .lineString cs => cs.all (fun c => c.length == 2)
  | .polygon rs =>
      rs.all (fun r => r.all (fun c => c.length == 2) && decide (r.head? = r.getLast?))
  | .unsupported _ => false

/-- A validated raw coordinate pair `[lng, lat]` as a real point. -/
def toPair (c : List ℚ) : ℝ × ℝ :=
  match c with
  | [x, y] => ((x : ℝ), (y : ℝ))
  | _ => (0, 0)

/-- Euclidean distance in coordinate (degree) space; the spec fixes the cell
center as the representative point but leaves the metric open. -/
def euclid (p q : ℝ × ℝ) : ℝ := Real.sqrt ((p.1 - q.1) ^ 2 + (p.2 - q.2) ^ 2)

/-- Modelled from the spec (§4.1): distance from a point to a segment — the
distance to the clamped orthogonal projection onto the segment. -/
def segDist (p a b : ℝ × ℝ) : ℝ :=
  let vx := b.1 - a.1
  let vy := b.2 - a.2
  let len2 := vx ^ 2 + vy ^ 2
  if len2 = 0 then euclid p a
  else
    let t := max 0 (min 1 (((p.1 - a.1) * vx + (p.2 - a.2) * vy) / len2))
    euclid p (a.1 + t * vx, a.2 + t * vy)

/-- Modelled from the spec (§4.1): distance from a point to the nearest point
on a polyline — the minimum of the segment distances over all segments. -/
def polylineDist (p : ℝ × ℝ) : List (ℝ × ℝ) → ℝ
  | [] => 0
  | [a] => euclid p a
  | a :: b :: rest => min (segDist p a b) (polylineDist p (b :: rest))

/-- Modelled from the spec (§4.1): the centroid of a polygon's exterior ring
(vertex average, closing duplicate dropped), for density-style treatment. -/
def ringCentroid (ring : List (List ℚ)) : ℝ × ℝ :=
  match ring.dropLast with
  | [] => (0, 0)
  | core =>
      let pts := core.map toPair
      ((pts.map Prod.fst).sum / core.length, (pts.map Prod.snd).sum / core.length)

/-- Modelled from the spec (§4.1): the geometry-appropriate distance from a
cell center — a point's own location, the nearest point on a polyline, or a
polygon's centroid under density-style treatment. -/
def featureDistance (p : ℝ × ℝ) : SGeometry → ℝ
  | .point c => euclid p (toPair c)
  | .lineString cs => polylineDist p (cs.map toPair)
  | .polygon rings => euclid p (ringCentroid (rings.headD []))
  | .unsupported _ => 0

/-- Modelled from the spec (§4.3): the single filter's comparison operators. -/
inductive FilterOp where
  | opEq | opNe | opLt | opLe | opGt | opGe | opContains
deriving DecidableEq

/-- Modelled from the spec (§4.3): the optional single filter. -/
structure SFilter where
  prop : String
  op : FilterOp
  value : SValue
deriving DecidableEq

/-- Modelled from the spec (§4.3): evaluate `propertyValue <op> filterValue`;
order comparisons apply to numeric values, `contains` to strings. -/
def evalFilterOp : FilterOp → SValue → SValue → Bool
  | .opEq, v, w => v == w
  | .opNe, v, w => !(v == w)
  | .opLt, .num a, .num b => decide (a < b)
  | .opLt, _, _ => false
  | .opLe, .num a, .num b => decide (a ≤ b)
  | .opLe, _, _ => false
  | .opGt, .num a, .num b => decide (b < a)
  | .opGt, _, _ => false
  | .opGe, .num a, .num b => decide (b ≤ a)
  | .opGe, _, _ => false
  | .opContains, .str a, .str b => decide (b.data <:+: a.data)
  | .opContains, _, _ => false

/-- Modelled from the spec (§4.3): a configured filter excludes non-matching
features entirely; a missing property on a filtered feature is a non-match,
not an error. -/
def passesFilter (filt : Option SFilter) (f : SFeature) : Bool :=
  match filt with
  | none => true
  | some flt =>
      match f.props.lookup flt.prop with
      | none => false
      | some v => evalFilterOp flt.op v flt.value

/-- Modelled from the spec (§3): the rasterization target's bounding box and
resolution. -/
structure GridBox where
  south : ℚ
  north : ℚ
  west : ℚ
  east : ℚ
  rows : ℕ
  cols : ℕ
deriving DecidableEq

/-- Modelled from the spec (§3): the per-request processing configuration. -/
structure SConfig where
  decay : DecaySpec
  weightProp : Option String
  weightTable : List (SValue × ℚ)
  filter : Option SFilter
  grid : GridBox

/-- Modelled from the spec (§3): cell centers are the representative points;
cell size is `(north-south)/rows` by `(east-west)/cols`. -/
def cellCenter (g : GridBox) (i j : ℕ) : ℝ × ℝ :=
  ((g.west : ℝ) + ((j : ℝ) + 1 / 2) * ((g.east : ℝ) - (g.west : ℝ)) / (g.cols : ℝ),
   (g.south : ℝ) + ((i : ℝ) + 1 / 2) * ((g.north : ℝ) - (g.south : ℝ)) / (g.rows : ℝ))

/-- Modelled from the spec (§4.3): resolve the feature's value of the
weighting property against the weight table; absent ⇒ default divisor 1. -/
def weightDivisor (cfg : SConfig) (f : SFeature) : ℚ :=
  match cfg.weightProp with
  | none => 1
  | some prop =>
      match f.props.lookup prop with
      | none => 1
      | some v =>
          match cfg.weightTable.lookup v with
          | none => 1
          | some w => w

/-- Modelled from the spec (§4.3–§4.4): a surviving feature's accumulated
contribution to a cell is `decay(distance) / weight_divisor`. -/
def contribution (cfg : SConfig) (p : ℝ × ℝ) (f : SFeature) : ℝ :=
  decayValue cfg.decay (featureDistance p f.geom) / ((weightDivisor cfg f : ℚ) : ℝ)

/-- Modelled from the spec (§4.4): the features that survive geometry
validation and the filter. -/
def includedFeatures (features : List SFeature) (cfg : SConfig) : List SFeature :=
  (features.filter (fun f => validGeometry f.geom)).filter (passesFilter cfg.filter)

/-- Modelled from the spec (§7): the fatal error taxonomy (per-feature
`GeometryError`s are recovered and reported as the skipped list instead). -/
inductive EngineError where
  | invalidGrid
  | invalidParameter
  | shapeMismatch
deriving DecidableEq

/-- Modelled from the spec (§4.4, §6): a produced grid plus the diagnostics
list of skipped (malformed) features. -/
structure RasterResult where
  grid : GridBox
  cells : ℕ → ℕ → ℝ
  skipped : List SFeature

/-- Modelled from the spec (§4.4, §7): `rasterize(features, config) -> Grid`.
A zero-area bounding box or non-positive resolution is an
`InvalidGridError`; an out-of-domain decay parameter is an
`InvalidParameterError`; malformed features are skipped and reported; every
cell accumulates `decay(distance)/divisor` additively over the surviving
features. -/
def rasterize (features : List SFeature) (cfg : SConfig) :
    Except EngineError RasterResult :=
  if cfg.grid.north = cfg.grid.south ∨ cfg.grid.east = cfg.grid.west then
    .error .invalidGrid
  else if cfg.grid.rows = 0 ∨ cfg.grid.cols = 0 then
    .error .invalidGrid
  else if ¬ cfg.decay.valid then
    .error .invalidParameter
  else
    .ok { grid := cfg.grid
          cells := fun i j =>
            ((includedFeatures features cfg).map
              (contribution cfg (cellCenter cfg.grid i j))).sum
          skipped := features.filter (fun f => !(validGeometry f.geom)) }

/-- Modelled from the spec (§3, §4.5): a previously rasterized grid handed to
the Layer Combiner. -/
structure Grid where
  box : GridBox
  cells : ℕ → ℕ → ℝ

/-- Modelled from the spec (§4.5): the combination algebra modes. -/
inductive CombineMode where
  | additive
  | multiplicative
  | subtractive
  | weighted

/-- Modelled from the spec (§4.5): `combine(grids, mode, weights?)`; all
grids must share one shape (`ShapeMismatchError` otherwise, no partial
result); `weighted` is cell-wise `Σ wᵢ·gridᵢ[cell]` with weights defaulting
to `1/N` when omitted. -/
def combine (grids : List Grid) (mode : CombineMode) (weights : Option (List ℝ)) :
    Except EngineError Grid :=
  match grids with
  | [] => .error .shapeMismatch
  | g :: rest =>
      if rest.all (fun h => h.box == g.box) then
        .ok { box := g.box
              cells := fun i j =>
                match mode with
                | .additive => ((g :: rest).map (fun h => h.cells i j)).sum
                | .multiplicative => ((g :: rest).map (fun h => h.cells i j)).prod
                | .subtractive => g.cells i j - (rest.map (fun h => h.cells i j)).sum
                | .weighted =>
                    let n := (g :: rest).length
                    let ws := weights.getD (List.replicate n ((n : ℝ)⁻¹))
                    ((ws.zip (g :: rest)).map (fun p => p.1 * p.2.cells i j)).sum }
      else .error .shapeMismatch

/-! ## Rasterizer theorems -/

/-- C8: every rasterization request whose bounding box has zero area
(`north = south` or `east = west`) raises `InvalidGridError` and produces no
grid, not even a partial one. -/
theorem rasterize_zero_area_bbox (features : List SFeature) (cfg : SConfig)
    (h : cfg.grid.north = cfg.grid.south ∨ cfg.grid.east = cfg.grid.west) :
    rasterize features cfg = .error .invalidGrid := by
  simp only [rasterize]
  rw [if_pos h]

/-- Witness for C8: a request over the degenerate box `[0,0]×[0,1]`
(north = south) is rejected. -/
theorem rasterize_zero_area_bbox_witness :
    ((⟨0, 0, 0, 1, 5, 5⟩ : GridBox).north = (⟨0, 0, 0, 1, 5, 5⟩ : GridBox).south ∨
      (⟨0, 0, 0, 1, 5, 5⟩ : GridBox).east = (⟨0, 0, 0, 1, 5, 5⟩ : GridBox).west) ∧
    rasterize [] ⟨DecaySpec.exponential 1, none, [], none, ⟨0, 0, 0, 1, 5, 5⟩⟩ =
      .error .invalidGrid :=
  ⟨Or.inl rfl,
   rasterize_zero_area_bbox []
     ⟨DecaySpec.exponential 1, none, [], none, ⟨0, 0, 0, 1, 5, 5⟩⟩ (Or.inl rfl)⟩

/-- C3: rasterizing an empty FeatureCollection over any valid grid
configuration yields a grid in which every cell equals exactly 0, and no
error is raised. -/
theorem rasterize_empty_collection (cfg : SConfig)
    (hns : cfg.grid.north ≠ cfg.grid.south) (hew : cfg.grid.east ≠ cfg.grid.west)
    (hrows : cfg.grid.rows ≠ 0) (hcols : cfg.grid.cols ≠ 0)
    (hd : cfg.decay.valid) :
    ∃ res, rasterize [] cfg = .ok res ∧ (∀ i j, res.cells i j = 0) ∧
      res.skipped = [] := by
  have hne : ¬ (cfg.grid.north = cfg.grid.south ∨ cfg.grid.east = cfg.grid.west) := by
    tauto
  have hrc : ¬ (cfg.grid.rows = 0 ∨ cfg.grid.cols = 0) := by tauto
  refine ⟨⟨cfg.grid,
    fun i j => ((includedFeatures [] cfg).map
      (contribution cfg (cellCenter cfg.grid i j))).sum,
    [].filter (fun f => !(validGeometry f.geom))⟩, ?_, ?_, ?_⟩
  · simp only [rasterize, if_neg hne, if_neg hrc, if_neg (not_not_intro hd)]
  · intro i j
    simp [includedFeatures]
  · simp

/-- Witness for C3: the empty collection over a 5×5 grid on `[0,1]×[0,1]`
with `exponential(rate = 1)` decay. -/
theorem rasterize_empty_collection_witness :
    (let cfg : SConfig := ⟨DecaySpec.exponential 1, none, [], none, ⟨0, 1, 0, 1, 5, 5⟩⟩
     cfg.grid.north ≠ cfg.grid.south ∧ cfg.grid.east ≠ cfg.grid.west ∧
     cfg.grid.rows ≠ 0 ∧ cfg.grid.cols ≠ 0 ∧ cfg.decay.valid ∧
     ∃ res, rasterize [] cfg = .ok res ∧ (∀ i j, res.cells i j = 0) ∧
       res.skipped = []) := by
  refine ⟨by decide, by decide, by decide, by decide,
    by norm_num [DecaySpec.valid], ?_⟩
  exact rasterize_empty_collection _ (by decide) (by decide) (by decide) (by decide)
    (by norm_num [DecaySpec.valid])

/-- C7: every feature with malformed or unsupported geometry is skipped and
surfaced to the caller as the list of skipped features alongside the result,
while rasterization of the remaining features completes and returns the same
grid — one bad feature never aborts the pass. -/
theorem rasterize_skips_malformed (features : List SFeature) (cfg : SConfig)
    (hns : cfg.grid.north ≠ cfg.grid.south) (hew : cfg.grid.east ≠ cfg.grid.west)
    (hrows : cfg.grid.rows ≠ 0) (hcols : cfg.grid.cols ≠ 0)
    (hd : cfg.decay.valid) :
    ∃ res res',
      rasterize features cfg = .ok res ∧
      res.skipped = features.filter (fun f => !(validGeometry f.geom)) ∧
      rasterize (features.filter (fun f => validGeometry f.geom)) cfg = .ok res' ∧
      res'.skipped = [] ∧
      (∀ i j, res'.cells i j = res.cells i j) := by
  have hne : ¬ (cfg.grid.north = cfg.grid.south ∨ cfg.grid.east = cfg.grid.west) := by
    tauto
  have hrc : ¬ (cfg.grid.rows = 0 ∨ cfg.grid.cols = 0) := by tauto
  have hsame : includedFeatures (features.filter (fun f => validGeometry f.geom)) cfg =
      includedFeatures features cfg := by
    simp only [includedFeatures, List.filter_filter, Bool.and_self]
  refine ⟨⟨cfg.grid,
    fun i j => ((includedFeatures features cfg).map
      (contribution cfg (cellCenter cfg.grid i j))).sum,
    features.filter (fun f => !(validGeometry f.geom))⟩,
    ⟨cfg.grid,
    fun i j => ((includedFeatures (features.filter (fun f => validGeometry f.geom)) cfg).map
      (contribution cfg (cellCenter cfg.grid i j))).sum,
    (features.filter (fun f => validGeometry f.geom)).filter
      (fun f => !(validGeometry f.geom))⟩, ?_, rfl, ?_, ?_, ?_⟩
  · simp only [rasterize, if_neg hne, if_neg hrc, if_neg (not_not_intro hd)]
  · simp only [rasterize, if_neg hne, if_neg hrc, if_neg (not_not_intro hd)]
  · simp only [List.filter_filter]
    have : ∀ f : SFeature, (!(validGeometry f.geom) && validGeometry f.geom) = false := by
      intro f
      cases validGeometry f.geom <;> simp
    simp only [this, List.filter_false]
  · intro i j
    simp only [hsame]

/-- Witness for C7: a collection holding one unsupported-geometry feature and
one well-formed point feature over a 5×5 grid. -/
theorem rasterize_skips_malformed_witness :
    (let cfg : SConfig := ⟨DecaySpec.exponential 1, none, [], none, ⟨0, 1, 0, 1, 5, 5⟩⟩
     cfg.grid.north ≠ cfg.grid.south ∧ cfg.grid.east ≠ cfg.grid.west ∧
     cfg.grid.rows ≠ 0 ∧ cfg.grid.cols ≠ 0 ∧ cfg.decay.valid ∧
     ∃ res res',
       rasterize [⟨.unsupported "MultiPoint", []⟩, ⟨.point [1/2, 1/2], []⟩] cfg = .ok res ∧
       res.skipped = [⟨.unsupported "MultiPoint", []⟩,
         ⟨.point [1/2, 1/2], []⟩].filter (fun f => !(validGeometry f.geom)) ∧
       rasterize ([⟨.unsupported "MultiPoint", []⟩,
         ⟨.point [1/2, 1/2], []⟩].filter (fun f => validGeometry f.geom)) cfg = .ok res' ∧
       res'.skipped = [] ∧
       (∀ i j, res'.cells i j = res.cells i j)) := by
  refine ⟨by decide, by decide, by decide, by decide,
    by norm_num [DecaySpec.valid], ?_⟩
  exact rasterize_skips_malformed _ _ (by decide) (by decide) (by decide) (by decide)
    (by norm_num [DecaySpec.valid])

/-- C2: every surviving feature's accumulated contribution to every cell is
`decay(distance) / weight_divisor`; and a single point feature rasterized
alone with divisor 100 produces cell values — in particular the peak —
exactly 1/100th of those produced by the same feature with divisor 1. -/
theorem weight_divisor_inversion
    (features : List SFeature) (cfg : SConfig) (res : RasterResult)
    (hok : rasterize features cfg = .ok res)
    (ds : DecaySpec) (g : GridBox) (coords : List ℚ)
    (props : List (String × SValue)) (prop : String) (v : SValue)
    (hns : g.north ≠ g.south) (hew : g.east ≠ g.west)
    (hrows : g.rows ≠ 0) (hcols : g.cols ≠ 0) (hd : ds.valid)
    (har : coords.length = 2) (hlook : props.lookup prop = some v) :
    (∀ i j, res.cells i j = ((includedFeatures features cfg).map (fun f =>
        decayValue cfg.decay (featureDistance (cellCenter cfg.grid i j) f.geom) /
          ((weightDivisor cfg f : ℚ) : ℝ))).sum) ∧
    (∃ r1 r100,
      rasterize [⟨.point coords, props⟩] ⟨ds, some prop, [(v, 1)], none, g⟩ = .ok r1 ∧
      rasterize [⟨.point coords, props⟩] ⟨ds, some prop, [(v, 100)], none, g⟩ = .ok r100 ∧
      ∀ i j, r100.cells i j = r1.cells i j / 100) := by
  constructor
  · intro i j
    simp only [rasterize] at hok
    split_ifs at hok
    all_goals cases hok
    rfl
  · have hne : ¬ (g.north = g.south ∨ g.east = g.west) := by tauto
    have hrc : ¬ (g.rows = 0 ∨ g.cols = 0) := by tauto
    have hval : validGeometry (SGeometry.point coords) = true := by
      simp [validGeometry, har]
    have hinc : ∀ tbl : List (SValue × ℚ),
        includedFeatures [⟨.point coords, props⟩] ⟨ds, some prop, tbl, none, g⟩ =
          [⟨.point coords, props⟩] := by
      intro tbl
      simp [includedFeatures, passesFilter, hval]
    have hd1 : weightDivisor ⟨ds, some prop, [(v, 1)], none, g⟩
        ⟨.point coords, props⟩ = 1 := by
      simp [weightDivisor, hlook, List.lookup]
    have hd100 : weightDivisor ⟨ds, some prop, [(v, 100)], none, g⟩
        ⟨.point coords, props⟩ = 100 := by
      simp [weightDivisor, hlook, List.lookup]
    refine ⟨⟨g, fun i j =>
        ((includedFeatures [⟨.point coords, props⟩] ⟨ds, some prop, [(v, 1)], none, g⟩).map
          (contribution ⟨ds, some prop, [(v, 1)], none, g⟩ (cellCenter g i j))).sum,
        [⟨.point coords, props⟩].filter (fun f => !(validGeometry f.geom))⟩,
      ⟨g, fun i j =>
        ((includedFeatures [⟨.point coords, props⟩] ⟨ds, some prop, [(v, 100)], none, g⟩).map
          (contribution ⟨ds, some prop, [(v, 100)], none, g⟩ (cellCenter g i j))).sum,
        [⟨.point coords, props⟩].filter (fun f => !(validGeometry f.geom))⟩, ?_, ?_, ?_⟩
    · simp only [rasterize, if_neg hne, if_neg hrc, if_neg (not_not_intro hd)]
    · simp only [rasterize, if_neg hne, if_neg hrc, if_neg (not_not_intro hd)]
    · intro i j
      simp only [hinc, List.map_cons, List.map_nil, List.sum_cons, List.sum_nil,
        contribution, hd1, hd100]
      push_cast
      ring

/-- Witness for C2: a single point feature at `(1/2, 1/2)` carrying property
`p = 5`, rasterized over a 5×5 grid with `exponential(rate = 1)` decay and
weight tables `[(5, 1)]` versus `[(5, 100)]`. -/
theorem weight_divisor_inversion_witness :
    (let g : GridBox := ⟨0, 1, 0, 1, 5, 5⟩
     let f : SFeature := ⟨.point [1/2, 1/2], [("p", .num 5)]⟩
     let cfg : SConfig := ⟨DecaySpec.exponential 1, some "p", [(.num 5, 1)], none, g⟩
     let res : RasterResult := ⟨g, fun i j => ((includedFeatures [f] cfg).map
       (contribution cfg (cellCenter g i j))).sum,
       [f].filter (fun f' => !(validGeometry f'.geom))⟩
     (rasterize [f] cfg = .ok res ∧ g.north ≠ g.south ∧ g.east ≠ g.west ∧
      g.rows ≠ 0 ∧ g.cols ≠ 0 ∧ (DecaySpec.exponential 1).valid ∧
      ([1/2, 1/2] : List ℚ).length = 2 ∧
      [("p", SValue.num 5)].lookup "p" = some (.num 5)) ∧
     ((∀ i j, res.cells i j = ((includedFeatures [f] cfg).map (fun f' =>
         decayValue cfg.decay (featureDistance (cellCenter cfg.grid i j) f'.geom) /
           ((weightDivisor cfg f' : ℚ) : ℝ))).sum) ∧
      (∃ r1 r100,
        rasterize [f] ⟨DecaySpec.exponential 1, some "p", [(.num 5, 1)], none, g⟩ = .ok r1 ∧
        rasterize [f] ⟨DecaySpec.exponential 1, some "p", [(.num 5, 100)], none, g⟩ = .ok r100 ∧
        ∀ i j, r100.cells i j = r1.cells i j / 100))) := by
  have hne : ¬ ((⟨0, 1, 0, 1, 5, 5⟩ : GridBox).north = (⟨0, 1, 0, 1, 5, 5⟩ : GridBox).south ∨
      (⟨0, 1, 0, 1, 5, 5⟩ : GridBox).east = (⟨0, 1, 0, 1, 5, 5⟩ : GridBox).west) := by decide
  have hrc : ¬ ((⟨0, 1, 0, 1, 5, 5⟩ : GridBox).rows = 0 ∨
      (⟨0, 1, 0, 1, 5, 5⟩ : GridBox).cols = 0) := by decide
  have hdv : (DecaySpec.exponential 1).valid := by norm_num [DecaySpec.valid]
  have hok : rasterize [(⟨.point [1/2, 1/2], [("p", .num 5)]⟩ : SFeature)]
      ⟨DecaySpec.exponential 1, some "p", [(.num 5, 1)], none, ⟨0, 1, 0, 1, 5, 5⟩⟩ =
      .ok ⟨⟨0, 1, 0, 1, 5, 5⟩, fun i j =>
        ((includedFeatures [⟨.point [1/2, 1/2], [("p", .num 5)]⟩]
          ⟨DecaySpec.exponential 1, some "p", [(.num 5, 1)], none, ⟨0, 1, 0, 1, 5, 5⟩⟩).map
          (contribution ⟨DecaySpec.exponential 1, some "p", [(.num 5, 1)], none,
            ⟨0, 1, 0, 1, 5, 5⟩⟩ (cellCenter ⟨0, 1, 0, 1, 5, 5⟩ i j))).sum,
        [(⟨.point [1/2, 1/2], [("p", .num 5)]⟩ : SFeature)].filter
          (fun f' => !(validGeometry f'.geom))⟩ := by
    simp only [rasterize, if_neg hne, if_neg hrc, if_neg (not_not_intro hdv)]
  exact ⟨⟨hok, by decide, by decide, by decide, by decide, hdv, by decide, rfl⟩,
    weight_divisor_inversion _ _ _ hok (DecaySpec.exponential 1) ⟨0, 1, 0, 1, 5, 5⟩
      [1/2, 1/2] [("p", .num 5)] "p" (.num 5)
      (by decide) (by decide) (by decide) (by decide) hdv (by decide) rfl⟩

/-! ## Layer Combiner theorems -/

lemma zip_replicate_mul {α : Type} (c : ℝ) (f : α → ℝ) (l : List α) :
    ((List.replicate l.length c).zip l).map (fun p => p.1 * f p.2) =
      l.map (fun h => c * f h) := by
  induction l with
  | nil => rfl
  | cons a t ih => simpa [List.replicate_succ] using ih

/-- C6: combining two or more same-shape grids in weighted mode yields a grid
whose every cell is `Σᵢ weightᵢ · gridᵢ[cell]`; when the weight list is
omitted, equal weights `1/N` are used. -/
theorem combine_weighted_mode (g : Grid) (rest : List Grid) (ws : List ℝ)
    (hlen : 1 ≤ rest.length)
    (hshape : rest.all (fun h => h.box == g.box) = true)
    (hws : ws.length = rest.length + 1) :
    (∃ r, combine (g :: rest) .weighted (some ws) = .ok r ∧
       ∀ i j, r.cells i j =
         ((ws.zip (g :: rest)).map (fun p => p.1 * p.2.cells i j)).sum) ∧
    (∃ r, combine (g :: rest) .weighted none = .ok r ∧
       ∀ i j, r.cells i j =
         ((g :: rest).map (fun h => ((g :: rest).length : ℝ)⁻¹ * h.cells i j)).sum) := by
  constructor
  · refine ⟨⟨g.box, fun i j =>
      ((ws.zip (g :: rest)).map (fun p => p.1 * p.2.cells i j)).sum⟩, ?_, fun i j => rfl⟩
    simp only [combine, if_pos hshape, Option.getD_some]
  · refine ⟨⟨g.box, fun i j =>
      ((((none : Option (List ℝ)).getD
          (List.replicate (g :: rest).length (((g :: rest).length : ℝ))⁻¹)).zip
        (g :: rest)).map (fun p => p.1 * p.2.cells i j)).sum⟩, ?_, ?_⟩
    · simp only [combine, if_pos hshape]
    · intro i j
      simp only [Option.getD_none]
      exact congrArg List.sum (zip_replicate_mul _ (fun h => h.cells i j) (g :: rest))

/-- Witness for C6: two constant 2×2 grids over `[0,1]×[0,1]` combined with
weights `[2, 7]` and with the weight list omitted. -/
theorem combine_weighted_mode_witness :
    (let g1 : Grid := ⟨⟨0, 1, 0, 1, 2, 2⟩, fun _ _ => 3⟩
     let g2 : Grid := ⟨⟨0, 1, 0, 1, 2, 2⟩, fun _ _ => 5⟩
     (1 ≤ [g2].length ∧ [g2].all (fun h => h.box == g1.box) = true ∧
      ([2, 7] : List ℝ).length = [g2].length + 1) ∧
     ((∃ r, combine [g1, g2] .weighted (some [2, 7]) = .ok r ∧
        ∀ i j, r.cells i j =
          ((([2, 7] : List ℝ).zip [g1, g2]).map (fun p => p.1 * p.2.cells i j)).sum) ∧
      (∃ r, combine [g1, g2] .weighted none = .ok r ∧
        ∀ i j, r.cells i j =
          (([g1, g2]).map (fun h => (([g1, g2].length : ℕ) : ℝ)⁻¹ * h.cells i j)).sum))) := by
  refine ⟨⟨by simp, by decide, by simp⟩, ?_⟩
  exact combine_weighted_mode _ _ _ (by simp) (by decide) (by simp)

/-! ## Embedding of the `heatmap-analyzer.js` prototype

The `DataCenterHeatmapAnalyzer` class is embedded with explicit state.
JavaScript numbers are reals; a `coordinates` element is a `JSVal` so that
the analyzer's scalar reads of `coordinates[1]`/`coordinates[0]` on
non-point geometries (which coerce arrays and produce `NaN`) are
representable; `none` stands for `NaN`/`undefined`, and a `NaN` distance
fails every `distance < threshold` guard exactly as in JavaScript. -/

/-- An element of a GeoJSON `coordinates` array as seen by JavaScript. -/
inductive JSVal where
  | num (x : ℝ)
  | arr (xs : List JSVal)
  | undef

/-- JavaScript numeric coercion of a `coordinates` element when it reaches
arithmetic: a number is itself; an array coerces through its comma-joined
string, so `[]` gives 0, a singleton number gives that number, and a
multi-element array (a coordinate pair) gives `NaN`; `undefined` gives
`NaN`.  `none` models `NaN`. -/
def toNumber : JSVal → Option ℝ
  | .num x => some x
  | .arr [] => some 0
  | .arr [.num x] => some x
  | .arr _ => none
  | .undef => none

/-- A feature's `geometry` object; the `coordinates` field may be absent. -/
structure JSGeom where
  coordinates : Option (List JSVal)

/-- The property fields the analyzer reads; `none` models an absent field
(`type` is called `typeName` here). -/
structure JSProps where
  populationDensity : Option ℝ
  targetScore : Option ℝ
  networkScore : Option ℝ
  providers : Option ℝ
  capacity : Option ℝ
  gridScore : Option ℝ
  capacityScore : Option ℝ
  climateScore : Option ℝ
  waterScore : Option ℝ
  reliability : Option ℝ
  safetyScore : Option ℝ
  typeName : Option String

/-- A feature with every property field absent. -/
def emptyProps : JSProps :=
  ⟨none, none, none, none, none, none, none, none, none, none, none, none⟩

structure JSFeature where
  geometry : Option JSGeom
  properties : JSProps

/-- The keyed datasets of `uploadedData`; a dataset whose `features` array
is missing behaves like an absent dataset (both hit the same guard), so both
are `none`. -/
structure UploadedData where
  userDemographics : Option (List JSFeature)
  networkInfrastructure : Option (List JSFeature)
  energyGrid : Option (List JSFeature)
  renewableEnergy : Option (List JSFeature)
  climateWater : Option (List JSFeature)
  disasterRisk : Option (List JSFeature)
  water : Option (List JSFeature)

/-- JavaScript `value || dflt` for a numeric property: absent and 0 are
falsy. -/
def jsOrN (a : Option ℝ) (dflt : ℝ) : ℝ :=
  match a with
  | some v => if v = 0 then dflt else v
  | none => dflt

/-- The analyzer's per-feature distance `calculateDistance(cell.lat,
cell.lng, coordinates[1], coordinates[0])` behind the `!feature.geometry ||
!feature.geometry.coordinates` guard; `none` when the guard fires or when
either coordinate element is not a number (`NaN` distance). -/
def featDistance (clat clng : ℝ) (f : JSFeature) : Option ℝ :=
  match f.geometry with
  | none => none
  | some geo =>
      match geo.coordinates with
      | none => none
      | some cs =>
          match toNumber (cs.getD 1 .undef), toNumber (cs.getD 0 .undef) with
          | some la, some ln => some (calculateDistance clat clng la ln)
          | _, _ => none

/-- The per-feature increment of the `analyzeUserDemographics` feature loop:
within 50 km, proximity times the normalized density
(`populationDensity || targetScore || 50`, capped by `min(1, ρ/200)`);
otherwise (or on a `NaN` distance) 0. -/
def userDemoFeatureScore (clat clng : ℝ) (f : JSFeature) : ℝ :=
  match featDistance clat clng f with
  | none => 0
  | some d =>
      if d < 50 then
        max 0 ((50 - d) / 50) *
          min 1 (jsOrN f.properties.populationDensity
            (jsOrN f.properties.targetScore 50) / 200)
      else 0

/-- The hard-coded major-city list `(lat, lng, weight)`. -/
def majorCities : List (ℝ × ℝ × ℝ) :=
  [(-33.8688, 151.2093, 1.0), (-37.8136, 144.9631, 0.9),
   (-27.4698, 153.0251, 0.8), (-31.9505, 115.8605, 0.7),
   (-34.9285, 138.6007, 0.6)]

def cityScore (clat clng : ℝ) (city : ℝ × ℝ × ℝ) : ℝ :=
  let d := calculateDistance clat clng city.1 city.2.1
  if d < 100 then max 0 ((100 - d) / 100) * city.2.2 else 0

def analyzeUserDemographics (clat clng : ℝ) (data : UploadedData) : ℝ :=
  match data.userDemographics with
  | none => 0.3
  | some feats =>
      min 1 (((feats.map (userDemoFeatureScore clat clng)).sum +
        (majorCities.map (cityScore clat clng)).sum) / 3)

def networkFeatureScore (clat clng : ℝ) (f : JSFeature) : ℝ :=
  match featDistance clat clng f with
  | none => 0
  | some d =>
      if d < 25 then
        max 0 ((25 - d) / 25) *
          min 1 (jsOrN f.properties.networkScore
            (jsOrN f.properties.providers 50) / 100)
      else 0

def networkFeatureCount (clat clng : ℝ) (f : JSFeature) : ℝ :=
  match featDistance clat clng f with
  | none => 0
  | some d => if d < 25 then 1 else 0

def analyzeNetworkInfrastructure (clat clng : ℝ) (data : UploadedData) : ℝ :=
  match data.networkInfrastructure with
  | none => 0.2
  | some feats =>
      min 1 (((feats.map (networkFeatureScore clat clng)).sum +
        (feats.map (networkFeatureCount clat clng)).sum * 0.1) / 3)

def energyFeatureScore (clat clng : ℝ) (f : JSFeature) : ℝ :=
  match featDistance clat clng f with
  | none => 0
  | some d =>
      if d < 100 then
        max 0 ((100 - d) / 100) *
          (jsOrN f.properties.capacity (jsOrN f.properties.gridScore 100) / 1000)
      else 0

def energyFeatureCount (clat clng : ℝ) (f : JSFeature) : ℝ :=
  match featDistance clat clng f with
  | none => 0
  | some d => if d < 100 then 1 else 0

def analyzeEnergyGrid (clat clng : ℝ) (data : UploadedData) : ℝ :=
  match data.energyGrid with
  | none => 0.3
  | some feats =>
      min 1 ((feats.map (energyFeatureScore clat clng)).sum / 5 +
        min 0.3 ((feats.map (energyFeatureCount clat clng)).sum * 0.05))

/-- The analyzer's fixed bounding box type (`this.australiaBounds`). -/
structure BoundsQ where
  north : ℚ
  south : ℚ
  east : ℚ
  west : ℚ
deriving DecidableEq

/-- `isCoastal`: within one degree of the bounding box's edges. -/
def isCoastal (b : BoundsQ) (lat lng : ℚ) : Bool :=
  decide (lng < b.west + 1 ∨ lng > b.east - 1 ∨ lat > b.north - 1 ∨ lat < b.south + 1)

def renewableFeatureScore (clat clng : ℝ) (f : JSFeature) : ℝ :=
  match featDistance clat clng f with
  | none => 0
  | some d =>
      if d < 50 then
        max 0 ((50 - d) / 50) * (jsOrN f.properties.capacityScore 50 / 100)
      else 0

def calculateWindPotential (b : BoundsQ) (lat lng : ℚ) : ℝ :=
  min 1 ((if isCoastal b lat lng then (0.6:ℝ) else 0.2) +
    max 0 ((|(lat:ℝ)| - 25) / 20))

/-- The `calculateHydroPotential` feature loop body; the source reads
`feature.geometry.coordinates` here without the presence guard (a missing
geometry would throw), which for geometry-carrying features coincides with
the guarded read modelled by `featDistance`. -/
def hydroFeatureScore (clat clng : ℝ) (f : JSFeature) : ℝ :=
  match featDistance clat clng f with
  | none => 0
  | some d => if d < 100 then max 0 ((100 - d) / 100) else 0

def calculateHydroPotential (lat lng : ℚ) (data : UploadedData) : ℝ :=
  match data.water with
  | none => 0.2
  | some feats => min 1 ((feats.map (hydroFeatureScore (lat:ℝ) (lng:ℝ))).sum / 2)

def analyzeRenewableEnergy (b : BoundsQ) (lat lng : ℚ) (data : UploadedData) : ℝ :=
  let score : ℝ :=
    match data.renewableEnergy with
    | none => 0
    | some feats => (feats.map (renewableFeatureScore (lat:ℝ) (lng:ℝ))).sum
  let solarScore := max 0 ((30 - |(lat:ℝ)|) / 30)
  let windScore := calculateWindPotential b lat lng
  let hydroScore := calculateHydroPotential lat lng data
  min 1 (score / 2) * 0.6 +
    (solarScore * 0.5 + windScore * 0.3 + hydroScore * 0.2) * 0.4

def climateFeatureScore (clat clng : ℝ) (f : JSFeature) : ℝ :=
  match featDistance clat clng f with
  | none => 0
  | some d =>
      if d < 50 then
        if f.properties.typeName = some "Climate Station" then
          max 0 ((50 - d) / 50) * (jsOrN f.properties.climateScore 50 / 100)
        else if f.properties.typeName = some "Water Source" then
          max 0 ((50 - d) / 50) *
            (jsOrN f.properties.waterScore (jsOrN f.properties.reliability 50) / 100)
        else 0
      else 0

def calculateTemperatureScore (b : BoundsQ) (lat lng : ℚ) : ℝ :=
  min 1 (max 0 ((|(lat:ℝ)| - 25) / 20) +
    (if isCoastal b lat lng then (0.2:ℝ) else 0))

def calculateHumidityScore (b : BoundsQ) (lat lng : ℚ) : ℝ :=
  min 1 ((if isCoastal b lat lng then (0.3:ℝ) else 0.7) +
    max 0 ((|(lat:ℝ)| - 20) / 30))

def analyzeClimateWater (b : BoundsQ) (lat lng : ℚ) (data : UploadedData) : ℝ :=
  let score : ℝ :=
    match data.climateWater with
    | none => 0
    | some feats => (feats.map (climateFeatureScore (lat:ℝ) (lng:ℝ))).sum
  min 1 (score / 2) * 0.5 +
    (calculateTemperatureScore b lat lng * 0.6 +
      calculateHumidityScore b lat lng * 0.4) * 0.5

def disasterFeatureRisk (clat clng : ℝ) (f : JSFeature) : ℝ :=
  match featDistance clat clng f with
  | none => 0
  | some d =>
      if d < 100 then
        ((100 - d) / 100) * ((100 - jsOrN f.properties.safetyScore 70) / 100) * 0.3
      else 0

/-- The hard-coded high-risk seismic zones `(lat, lng, radius)`. -/
def seismicZones : List (ℝ × ℝ × ℝ) :=
  [(-31.9505, 115.8605, 100), (-37.8136, 144.9631, 80), (-19.2590, 146.8169, 150)]

def seismicZoneRisk (clat clng : ℝ) (z : ℝ × ℝ × ℝ) : ℝ :=
  let d := calculateDistance clat clng z.1 z.2.1
  if d < z.2.2 then ((z.2.2 - d) / z.2.2) * 0.4 else 0

def calculateSeismicRisk (clat clng : ℝ) : ℝ :=
  max 0 (1 - (0.1 + (seismicZones.map (seismicZoneRisk clat clng)).sum))

/-- The hard-coded major-river locations. -/
def majorRivers : List (ℝ × ℝ) :=
  [(-33.8688, 151.2093), (-37.8136, 144.9631), (-27.4698, 153.0251)]

def riverRisk (clat clng : ℝ) (r : ℝ × ℝ) : ℝ :=
  let d := calculateDistance clat clng r.1 r.2
  if d < 50 then ((50 - d) / 50) * 0.2 else 0

/-- `calculateFloodRisk` (its unused `data` parameter is dropped). -/
def calculateFloodRisk (b : BoundsQ) (lat lng : ℚ) : ℝ :=
  max 0 (1 - (0.1 + (if isCoastal b lat lng then (0.3:ℝ) else 0) +
    (majorRivers.map (riverRisk (lat:ℝ) (lng:ℝ))).sum))

def calculateBushfireRisk (lat lng : ℚ) : ℝ :=
  max 0 (1 - ((0.2:ℝ) +
    (if lat > -30 ∧ lat < -20 ∧ lng > 140 then (0.4:ℝ) else 0) +
    (if lat < -35 ∧ lng > 140 ∧ lng < 150 then (0.3:ℝ) else 0)))

def calculateCycloneRisk (b : BoundsQ) (lat lng : ℚ) : ℝ :=
  max 0 (1 - ((0.1:ℝ) +
    (if lat > -26 then (0.6:ℝ) + (if isCoastal b lat lng then (0.2:ℝ) else 0)
     else 0)))

def analyzeDisasterRisk (b : BoundsQ) (lat lng : ℚ) (data : UploadedData) : ℝ :=
  let riskScore : ℝ := 0.8 -
    (match data.disasterRisk with
     | none => 0
     | some feats => (feats.map (disasterFeatureRisk (lat:ℝ) (lng:ℝ))).sum)
  let seismicScore := calculateSeismicRisk (lat:ℝ) (lng:ℝ)
  let floodScore := calculateFloodRisk b lat lng
  let bushfireScore := calculateBushfireRisk lat lng
  let cycloneScore := calculateCycloneRisk b lat lng
  let calculatedRisk := 1 - ((1 - seismicScore) + (1 - floodScore) +
    (1 - bushfireScore) + (1 - cycloneScore)) / 4
  max 0 (min 1 ((riskScore + calculatedRisk) / 2))

/-- One analysis-grid cell (`cellId` is the formatted `lat_lng` string, a
pure function of the coordinates, and is omitted). -/
structure Cell where
  lat : ℚ
  lng : ℚ
deriving DecidableEq

/-- `this.criteriaWeights`. -/
structure CriteriaWeights where
  userDemographics : ℝ
  networkInfrastructure : ℝ
  energyGrid : ℝ
  renewableEnergy : ℝ
  climateWater : ℝ
  disasterRisk : ℝ

/-- Iteration count of the JavaScript loop
`for (x = lo; x <= hi; x += step)` in real arithmetic: `⌊(hi-lo)/step⌋ + 1`
steps for a positive step starting inside the range. -/
def loopCount (lo hi step : ℚ) : ℕ :=
  if 0 < step ∧ lo ≤ hi then (⌊(hi - lo) / step⌋ + 1).toNat else 0

/-- `createAnalysisGrid`: the nested latitude/longitude loops from `south`
to `north` and `west` to `east` in `gridResolution` steps. -/
def createAnalysisGrid (res : ℚ) (b : BoundsQ) : List Cell :=
  (List.range (loopCount b.south b.north res)).flatMap (fun i =>
    (List.range (loopCount b.west b.east res)).map (fun j =>
      ⟨b.south + i * res, b.west + j * res⟩))

structure CellScores where
  userDemographics : ℝ
  networkInfrastructure : ℝ
  energyGrid : ℝ
  renewableEnergy : ℝ
  climateWater : ℝ
  disasterRisk : ℝ

def getSuitabilityLevel (score : ℝ) : String :=
  if score ≥ 0.8 then "Excellent"
  else if score ≥ 0.6 then "Very Good"
  else if score ≥ 0.4 then "Good"
  else if score ≥ 0.2 then "Fair"
  else "Poor"

structure CellResult where
  cell : Cell
  scores : CellScores
  totalScore : ℝ
  suitabilityLevel : String

/-- `analyzeGridCell`: the six criterion scores and their weighted total. -/
def analyzeGridCell (b : BoundsQ) (w : CriteriaWeights) (data : UploadedData)
    (c : Cell) : CellResult :=
  let s : CellScores :=
    ⟨analyzeUserDemographics ((c.lat : ℝ)) ((c.lng : ℝ)) data,
     analyzeNetworkInfrastructure ((c.lat : ℝ)) ((c.lng : ℝ)) data,
     analyzeEnergyGrid ((c.lat : ℝ)) ((c.lng : ℝ)) data,
     analyzeRenewableEnergy b c.lat c.lng data,
     analyzeClimateWater b c.lat c.lng data,
     analyzeDisasterRisk b c.lat c.lng data⟩
  let total := s.userDemographics * w.userDemographics +
    s.networkInfrastructure * w.networkInfrastructure +
    s.energyGrid * w.energyGrid +
    s.renewableEnergy * w.renewableEnergy +
    s.climateWater * w.climateWater +
    s.disasterRisk * w.disasterRisk
  ⟨c, s, total, getSuitabilityLevel total⟩

/-- The mutable instance state of `DataCenterHeatmapAnalyzer` (the Leaflet
layer handle and `analysisData` are presentation-layer and omitted). -/
structure AnalyzerState where
  analysisGrid : List Cell
  gridResolution : ℚ
  australiaBounds : BoundsQ
  criteriaWeights : CriteriaWeights

/-- The constructor's state: empty grid, 0.1° resolution, the Australia
bounding box, and the six criteria weights. -/
def initialState : AnalyzerState :=
  ⟨[], 1 / 10, ⟨-10, -44, 154, 113⟩, ⟨0.20, 0.25, 0.20, 0.10, 0.15, 0.10⟩⟩

/-- `generateHeatmap(uploadedData)`: clears the previous analysis, rebuilds
`this.analysisGrid`, and analyzes every cell (the Leaflet visualization and
the summary alert are presentation-layer, outside the engine per §1). -/
def generateHeatmap (s : AnalyzerState) (data : UploadedData) :
    AnalyzerState × List CellResult :=
  let grid := createAnalysisGrid s.gridResolution s.australiaBounds
  ({ s with analysisGrid := grid },
   grid.map (analyzeGridCell s.australiaBounds s.criteriaWeights data))

/-- C9: heatmap generation is deterministic and effectively stateless: the
results depend only on the configuration fields (resolution, bounds,
criteria weights) and the input data — never on the carried `analysisGrid`
— a call preserves the configuration, and a repeated call on the same
instance with the same input returns identical results (the embedding is a
pure function of `data`, so the input collection is not mutated). -/
theorem generateHeatmap_pure (s₁ s₂ : AnalyzerState) (data : UploadedData)
    (hres : s₁.gridResolution = s₂.gridResolution)
    (hb : s₁.australiaBounds = s₂.australiaBounds)
    (hw : s₁.criteriaWeights = s₂.criteriaWeights) :
    (generateHeatmap s₁ data).2 = (generateHeatmap s₂ data).2 ∧
    (generateHeatmap s₁ data).1.gridResolution = s₁.gridResolution ∧
    (generateHeatmap s₁ data).1.australiaBounds = s₁.australiaBounds ∧
    (generateHeatmap s₁ data).1.criteriaWeights = s₁.criteriaWeights ∧
    (generateHeatmap (generateHeatmap s₁ data).1 data).2 =
      (generateHeatmap s₁ data).2 := by
  refine ⟨?_, rfl, rfl, rfl, rfl⟩
  simp only [generateHeatmap, hres, hb, hw]

/-- Witness for C9: two fresh constructor states and an empty upload. -/
theorem generateHeatmap_pure_witness :
    (initialState.gridResolution = initialState.gridResolution ∧
     initialState.australiaBounds = initialState.australiaBounds ∧
     initialState.criteriaWeights = initialState.criteriaWeights) ∧
    (let data : UploadedData := ⟨none, none, none, none, none, none, none⟩
     (generateHeatmap initialState data).2 = (generateHeatmap initialState data).2 ∧
     (generateHeatmap initialState data).1.gridResolution =
       initialState.gridResolution ∧
     (generateHeatmap initialState data).1.australiaBounds =
       initialState.australiaBounds ∧
     (generateHeatmap initialState data).1.criteriaWeights =
       initialState.criteriaWeights ∧
     (generateHeatmap (generateHeatmap initialState data).1 data).2 =
       (generateHeatmap initialState data).2) :=
  ⟨⟨rfl, rfl, rfl⟩,
   generateHeatmap_pure initialState initialState
     ⟨none, none, none, none, none, none, none⟩ rfl rfl rfl⟩

/-- C1: counter-evidence for LineString rasterization.  A LineString whose
polyline passes exactly through the cell center contributes 0 in
`analyzeUserDemographics`: the code reads `coordinates[1]`/`coordinates[0]`
as scalars, so a LineString's coordinate pairs coerce to `NaN` and the
`distance < 50` guard fails — although the spec-prescribed nearest-point
(segment) distance is 0 and the prescribed proximity weight at distance 0 is
1 > 0. -/
theorem lineString_contribution_bug :
    userDemoFeatureScore (-33) 151
      ⟨some ⟨some [.arr [.num 150.9, .num (-33)], .arr [.num 151.1, .num (-33)]]⟩,
       emptyProps⟩ = 0 ∧
    polylineDist (151, -33) [(150.9, -33), (151.1, -33)] = 0 ∧
    (0:ℝ) < max 0 ((50 - polylineDist (151, -33) [(150.9, -33), (151.1, -33)]) / 50) := by
  have hseg : segDist (151, -33) (150.9, -33) (151.1, -33) = 0 := by
    simp only [segDist, euclid]
    norm_num [min_def, max_def]
  have hpoly : polylineDist (151, -33) [(150.9, -33), (151.1, -33)] = 0 := by
    simp only [polylineDist, hseg]
    exact min_eq_left (Real.sqrt_nonneg _)
  refine ⟨rfl, hpoly, ?_⟩
  rw [hpoly]
  norm_num

end Fleximap
